import Mathlib

/-!
Verification of the trivy-pr-commenter repository (Go sources) against its
natural-language specification.  The Go code is shallowly embedded: pure
string manipulation from the `strings` package is modelled on `List Char`,
the per-finding dispatch loop becomes a fold over an abstract outcome type
(the network client is an oracle), and the process exit decision becomes a
pure function of the accumulated loop state.

Two program variants exist in the repository and are embedded separately:
* `TrivyMain` — `src/main.go` (flat `TrivyVulnerability` list, every posting
  error is recorded, no error-type switch);
* `CmdCommenter` — `src/cmd/commenter/commenter.go` together with
  `src/cmd/commenter/resultsProcessor.go` (result/misconfiguration schema,
  error-type switch distinguishing already-written / not-valid / generic).
-/

/-! ### Go `strings` primitives, modelled on `List Char` -/

/-- Model of Go `strings.TrimPrefix(s, pat)` on character lists: removes one
leading occurrence of `pat` if present, otherwise returns `s` unchanged. -/
def trimPrefixL (s pat : List Char) : List Char :=
  if pat.isPrefixOf s then s.drop pat.length else s

/-- Model of Go `strings.TrimSuffix(s, pat)` on character lists. -/
def trimSuffixL (s pat : List Char) : List Char :=
  if pat.isSuffixOf s then s.take (s.length - pat.length) else s

/-- Fuelled worker for Go `strings.ReplaceAll(s, pat, "")`: scans left to
right, removing non-overlapping occurrences of `pat`; replacements are not
rescanned (with an empty replacement this just deletes occurrences).  The
fuel is instantiated with `s.length`, which bounds the number of steps since
every step consumes at least one character. -/
def replaceAllDel (pat : List Char) : Nat → List Char → List Char
  | 0, s => s
  | _ + 1, [] => []
  | fuel + 1, c :: rest =>
    if pat ≠ [] ∧ pat.isPrefixOf (c :: rest) then
      replaceAllDel pat fuel ((c :: rest).drop pat.length)
    else
      c :: replaceAllDel pat fuel rest

/-- Model of Go `strings.ReplaceAll(s, pat, "")` (the only form the sources
use: the workspace path is replaced by the empty string). -/
def replaceAllGo (s pat : String) : String :=
  ⟨replaceAllDel pat.data s.data.length s.data⟩

/-- Model of Go `strings.TrimPrefix` on `String`. -/
def trimPrefixGo (s pat : String) : String :=
  ⟨trimPrefixL s.data pat.data⟩

/-- Model of Go `strings.TrimSuffix` on `String`. -/
def trimSuffixGo (s pat : String) : String :=
  ⟨trimSuffixL s.data pat.data⟩

/-! ### Shared run-state model -/

/-- The two mutable locals of both dispatch loops:
`var errMessages []string` and `var validCommentWritten bool`. -/
structure LoopState where
  errMessages : List String
  validCommentWritten : Bool
deriving Repr, DecidableEq

/-- A comment ready to hand to the external client: the arguments of
`c.WriteMultiLineComment(filename, comment, startLine, endLine)`. -/
structure CommentRequest where
  filename : String
  body : String
  startLine : Int
  endLine : Int
deriving Repr, DecidableEq

/-- Observable outcome of a whole run: the process exit code, whether the
GitHub client was constructed (`createCommenter` reached), and how many
comment posts were attempted. -/
structure RunTrace where
  exitCode : Int
  clientCreated : Bool
  postsAttempted : Nat
deriving Repr, DecidableEq

/-- ASCII case folding of one character, as `strings.ToLower` performs on
the ASCII range (the flag values compared against `"true"` are ASCII; the
non-ASCII part of Go's Unicode folding is irrelevant to that comparison). -/
def charToLowerGo (c : Char) : Char :=
  if 'A' ≤ c ∧ c ≤ 'Z' then Char.ofNat (c.toNat + 32) else c

/-- Model of Go `strings.ToLower` (ASCII fragment). -/
def toLowerGo (s : String) : String :=
  ⟨s.data.map charToLowerGo⟩

/-- Model of
`softFail, ok := os.LookupEnv("INPUT_SOFT_FAIL_COMMENTER"); ok && strings.ToLower(softFail) == "true"`:
the argument is the looked-up environment value (`none` when unset). -/
def softFailEnabled : Option String → Bool
  | some v => toLowerGo v == "true"
  | none => false

/-- Model of the working-directory preprocessing shared by both variants:
`workingDir = strings.TrimPrefix(workingDir, "./"); workingDir = strings.TrimSuffix(workingDir, "/") + "/"`,
executed only when the variable is non-empty. -/
def normalizeWorkingDir (w : String) : String :=
  if w = "" then "" else trimSuffixGo (trimPrefixGo w "./") "/" ++ "/"

/-! ### Embedding of `src/main.go` -/

namespace TrivyMain

/-- The anonymous `Location` struct inside `Occurrences` in `src/main.go`. -/
structure OccLocation where
  StartLine : Int
  EndLine : Int
deriving Repr, DecidableEq

/-- One element of the `Occurrences` slice of `TrivyVulnerability`. -/
structure Occurrence where
  Resource : String
  Filename : String
  Location : OccLocation
deriving Repr, DecidableEq

/-- `TrivyVulnerability` from `src/main.go`.  The Go field `Type` is a Lean
keyword and is embedded as `TypeStr`; `Layer` and `CauseMetadata` are empty
structs (`struct{}`) in the source and are embedded as `Unit`. -/
structure TrivyVulnerability where
  Target : String
  TypeStr : String
  ID : String
  Title : String
  Description : String
  Severity : String
  PrimaryURL : String
  References : List String
  Status : String
  Layer : Unit
  CauseMetadata : Unit
  Occurrences : List Occurrence
deriving Repr, DecidableEq

/-- `generateErrorMessage` from `src/main.go`: the fixed comment template. -/
def generateErrorMessage (vuln : TrivyVulnerability) : String :=
  ":warning: Trivy found a **" ++ vuln.Severity ++ "** severity vulnerability (ID: "
    ++ vuln.ID ++ ") in " ++ vuln.Target ++ ":\n> " ++ vuln.Description
    ++ "\n\nMore information available at " ++ vuln.PrimaryURL

/-- The per-occurrence path computation of the `src/main.go` loop:
`filename := workingDir + strings.ReplaceAll(occurrence.Filename, workspacePath, "")`
followed by `filename = strings.TrimPrefix(filename, "./")`.
`wd` is the already-preprocessed working directory (`normalizeWorkingDir`),
`wsp` the workspace path (`GITHUB_WORKSPACE` plus a trailing slash). -/
def normalizePath (wd wsp f : String) : String :=
  trimPrefixGo (wd ++ replaceAllGo f wsp) "./"

/-- Outcome of one `WriteMultiLineComment` call as `src/main.go` observes it:
the variant inspects only `err != nil`, with the error message. -/
inductive PostResult where
  | ok
  | err (msg : String)
deriving Repr, DecidableEq

/-- Loop body of `src/main.go`: on error the message is appended to
`errMessages`; on success `validCommentWritten` is set. -/
def step (s : LoopState) : PostResult → LoopState
  | .ok => { s with validCommentWritten := true }
  | .err m => { s with errMessages := s.errMessages ++ [m] }

/-- The whole dispatch loop of `src/main.go` over a list of call outcomes,
starting from the zero-initialised locals. -/
def runLoop (outs : List PostResult) : LoopState :=
  outs.foldl step ⟨[], false⟩

/-- Helper: the error messages a list of outcomes contributes. -/
def errsOf (outs : List PostResult) : List String :=
  outs.filterMap fun o =>
    match o with
    | .ok => none
    | .err m => some m

/-- Helper: whether an outcome is a success. -/
def isOk : PostResult → Bool
  | .ok => true
  | .err _ => false

/-- The exit decision at the end of `main` in `src/main.go`:
`if len(errMessages) > 0 { ...; os.Exit(1) }` then
`if validCommentWritten || len(errMessages) == 0 { if softFail { return }; os.Exit(1) }`;
falling off `main` is exit code 0. -/
def exitCode (s : LoopState) (softFail : Option String) : Int :=
  if 0 < s.errMessages.length then 1
  else if s.validCommentWritten = true ∨ s.errMessages.length = 0 then
    (if softFailEnabled softFail = true then 0 else 1)
  else 0

/-- The error messages printed by the final `if len(errMessages) > 0` block
of `src/main.go` (nothing is printed when there were none). -/
def printedErrors (s : LoopState) : List String :=
  if 0 < s.errMessages.length then s.errMessages else []

/-- The comment requests one vulnerability generates in the `src/main.go`
loop: one per occurrence. -/
def requestsOf (wd wsp : String) (v : TrivyVulnerability) : List CommentRequest :=
  v.Occurrences.map fun occ =>
    ⟨normalizePath wd wsp occ.Filename, generateErrorMessage v,
      occ.Location.StartLine, occ.Location.EndLine⟩

/-- The nested `for` loops of `src/main.go`, with the external client as an
oracle `post`; returns the final locals plus the number of posts attempted. -/
def dispatch (post : CommentRequest → PostResult) (wd wsp : String)
    (vulns : List TrivyVulnerability) : LoopState × Nat :=
  vulns.foldl
    (fun acc v =>
      (requestsOf wd wsp v).foldl
        (fun acc2 req => (step acc2.1 (post req), acc2.2 + 1)) acc)
    (⟨[], false⟩, 0)

/-- The run of `src/main.go` from the point where the report is loaded:
`if len(vulnerabilities) == 0 { os.Exit(0) }` precedes `createCommenter`,
then the dispatch loop runs and the exit decision is taken. -/
def runMain (vulns : List TrivyVulnerability) (post : CommentRequest → PostResult)
    (wd wsp : String) (softFail : Option String) : RunTrace :=
  if vulns.length = 0 then ⟨0, false, 0⟩
  else
    let p := dispatch post wd wsp vulns
    ⟨exitCode p.1 softFail, true, p.2⟩

/-! #### Pull-request number extraction (`extractPullRequestNumber`) -/

/-- The observable state of `/github/workflow/event.json` as
`extractPullRequestNumber` in `src/main.go` reads it:
the file may be unreadable, hold invalid JSON, hold JSON that is not an
object (the `data.(map[string]interface{})` assertion then panics), or hold
an object whose `number` field renders via `fmt.Sprintf("%v", ...)` to some
string (`none` = field absent, rendering as `<nil>`). -/
inductive EventFile where
  | missing
  | badJson
  | nonObjectJson
  | objectPayload (numberField : Option String)
deriving Repr, DecidableEq

/-- `fmt.Sprintf("%v", payload["number"])`: an absent map key is `nil` and
renders as `<nil>`. -/
def fmtV : Option String → String
  | some s => s
  | none => "<nil>"

/-- Decimal accumulator for `strconv.Atoi`. -/
def digitsValAux : Nat → List Char → Option Nat
  | acc, [] => some acc
  | acc, c :: rest =>
    if '0' ≤ c ∧ c ≤ '9' then digitsValAux (10 * acc + (c.toNat - '0'.toNat)) rest
    else none

/-- Model of Go `strconv.Atoi`: optional sign followed by at least one
decimal digit (the 64-bit overflow error is not modelled; no claim depends
on it). -/
def goAtoi (s : String) : Option Int :=
  match s.data with
  | [] => none
  | c :: rest =>
    if c = '+' then
      (if rest = [] then none else (digitsValAux 0 rest).map fun n => (n : Int))
    else if c = '-' then
      (if rest = [] then none else (digitsValAux 0 rest).map fun n => -(n : Int))
    else (digitsValAux 0 (c :: rest)).map fun n => (n : Int)

/-- How `extractPullRequestNumber` in `src/main.go` terminates.  On an
unreadable event file it calls `fail`, which prints and runs `os.Exit(-1)`
(the `return -1, err` after it is dead code); on undecodable JSON it returns
an error; on non-object JSON the type assertion panics; otherwise it runs
`strconv.Atoi(fmt.Sprintf("%v", payload["number"]))` and returns either the
number or a `not a valid PR` error. -/
inductive ExtractOutcome where
  | exitedFatal (code : Int)
  | panicked
  | errorReturn
  | ok (n : Int)
deriving Repr, DecidableEq

/-- `extractPullRequestNumber` from `src/main.go`. -/
def extractPullRequestNumber : EventFile → ExtractOutcome
  | .missing => .exitedFatal (-1)
  | .badJson => .errorReturn
  | .nonObjectJson => .panicked
  | .objectPayload f =>
    match goAtoi (fmtV f) with
    | none => .errorReturn
    | some n => .ok n

/-- Result of the PR-resolution phase of `main` in `src/main.go`. -/
inductive PrPhase where
  | exited (code : Int)
  | panicked
  | proceeds (prNo : Int)
deriving Repr, DecidableEq

/-- `main`'s use of `extractPullRequestNumber`: an error return makes `main`
print `Not a PR, nothing to comment on, exiting` and `return` (normal
process termination, exit code 0); a fatal exit or panic inside the callee
ends the process there. -/
def mainPrPhase (ev : EventFile) : PrPhase :=
  match extractPullRequestNumber ev with
  | .exitedFatal c => .exited c
  | .panicked => .panicked
  | .errorReturn => .exited 0
  | .ok n => .proceeds n

end TrivyMain

/-! ### Embedding of `src/cmd/commenter` (`commenter.go`, `resultsProcessor.go`) -/

namespace CmdCommenter

/-- `line` from `resultsProcessor.go` (one source line of the cause code). -/
structure line where
  Number : Int
  Content : String
  IsCause : Bool
  Annotation : String
  Truncated : Bool
  Highlighted : String
  FirstCause : Bool
  LastCause : Bool
deriving Repr, DecidableEq

/-- `code` from `resultsProcessor.go`. -/
structure code where
  Lines : List line
deriving Repr, DecidableEq

/-- `causeMetadata` from `resultsProcessor.go`. -/
structure causeMetadata where
  Resource : String
  Provider : String
  Service : String
  StartLine : Int
  EndLine : Int
  Code : code
deriving Repr, DecidableEq

/-- `misconfiguration` from `resultsProcessor.go`.  The Go field `Type` is a
Lean keyword and is embedded as `TypeStr`; `Layer map[string]string` is
embedded as an association list. -/
structure misconfiguration where
  TypeStr : String
  ID : String
  AVDID : String
  Title : String
  Description : String
  Message : String
  Query : String
  Resolution : String
  Severity : String
  PrimaryURL : String
  References : List String
  Status : String
  Layer : List (String × String)
  CauseMetadata : causeMetadata
deriving Repr, DecidableEq

/-- `misconfSummary` from `resultsProcessor.go`. -/
structure misconfSummary where
  Successes : Int
  Failures : Int
  Exceptions : Int
deriving Repr, DecidableEq

/-- The range `commenter.go` reads as `result.Range.Filename`.  Note:
`resultsProcessor.go` declares `result` without a `Range` field, yet
`commenter.go` accesses one; the embedding adds the field the code uses. -/
structure fileRange where
  Filename : String
deriving Repr, DecidableEq

/-- `result` from `resultsProcessor.go`, plus the `Range` field that
`commenter.go` dereferences. -/
structure result where
  Target : String
  Class : String
  TypeStr : String
  MisconfSummary : Option misconfSummary
  Misconfigurations : List misconfiguration
  Range : fileRange
deriving Repr, DecidableEq

/-- The loop body of `formatUrls` in `commenter.go`:
`if urlList != "" { urlList += " and " }; urlList += fmt.Sprintf("[here](%s)", url)`. -/
def appendUrl (acc u : String) : String :=
  (if acc ≠ "" then acc ++ " and " else acc) ++ ("[here](" ++ u ++ ")")

/-- `formatUrls` from `commenter.go`: builds `urlList` by appending
`" and "` before every link except the first, each link being
`[here](url)`. -/
def formatUrls (urls : List String) : String :=
  urls.foldl appendUrl ""

/-- `generateErrorMessage` from `commenter.go`: the fixed comment template
over one misconfiguration. -/
def generateErrorMessage (m : misconfiguration) : String :=
  ":warning: trivy found a **" ++ m.Severity ++ "** severity issue from rule `"
    ++ m.ID ++ "`:\n> " ++ m.Description
    ++ "\n\nMore information available " ++ formatUrls m.References

/-- The spec's own description of the link list, used to compare against
`formatUrls`: each URL formatted as the markdown link `[here](url)`,
consecutive links joined by `" and "`, empty string for an empty list. -/
def specLinkList : List String → String
  | [] => ""
  | [u] => "[here](" ++ u ++ ")"
  | u :: v :: vs => "[here](" ++ u ++ ")" ++ " and " ++ specLinkList (v :: vs)

/-- Outcome of one `WriteMultiLineComment` call as the error-type switch in
`commenter.go` distinguishes it. -/
inductive PostOutcome where
  | success
  | alreadyWritten
  | notValid
  | genericError (msg : String)
deriving Repr, DecidableEq

/-- Loop body of `commenter.go`: success and `CommentAlreadyWrittenError`
set `validCommentWritten`; `CommentNotValidError` is skipped (`continue`);
any other error message is appended to `errMessages`. -/
def step (s : LoopState) : PostOutcome → LoopState
  | .success => { s with validCommentWritten := true }
  | .alreadyWritten => { s with validCommentWritten := true }
  | .notValid => s
  | .genericError m => { s with errMessages := s.errMessages ++ [m] }

/-- The dispatch loop of `commenter.go` over a list of call outcomes,
starting from the zero-initialised locals. -/
def runLoop (outs : List PostOutcome) : LoopState :=
  outs.foldl step ⟨[], false⟩

/-- Helper: the error messages a list of outcomes contributes (only
`genericError` contributes). -/
def errsOf (outs : List PostOutcome) : List String :=
  outs.filterMap fun o =>
    match o with
    | .genericError m => some m
    | _ => none

/-- The exit decision at the end of `main` in `commenter.go`:
`if len(errMessages) > 0 { ...; os.Exit(1) }` then
`if validCommentWritten || len(errMessages) > 0 { if softFail { return }; os.Exit(1) }`;
falling off `main` is exit code 0. -/
def exitCode (s : LoopState) (softFail : Option String) : Int :=
  if 0 < s.errMessages.length then 1
  else if s.validCommentWritten = true ∨ 0 < s.errMessages.length then
    (if softFailEnabled softFail = true then 0 else 1)
  else 0

/-- The comment request `commenter.go` builds for one result:
`result.Range.Filename = workingDir + strings.ReplaceAll(result.Range.Filename, workspacePath, "")`,
then `generateErrorMessage(result.Misconfigurations[0])` and the first
misconfiguration's cause lines.  Indexing `Misconfigurations[0]` on an empty
slice panics in Go; that unguarded case is modelled as `none`. -/
def requestOfResult (wd wsp : String) (r : result) : Option CommentRequest :=
  match r.Misconfigurations with
  | [] => none
  | m :: _ =>
    some ⟨wd ++ replaceAllGo r.Range.Filename wsp, generateErrorMessage m,
      m.CauseMetadata.StartLine, m.CauseMetadata.EndLine⟩

/-- The `for` loop of `commenter.go` with the external client as an oracle;
`none` models the runtime panic on a result with no misconfigurations. -/
def dispatch (post : CommentRequest → PostOutcome) (wd wsp : String) :
    List result → LoopState → Nat → Option (LoopState × Nat)
  | [], s, n => some (s, n)
  | r :: rs, s, n =>
    match requestOfResult wd wsp r with
    | none => none
    | some req => dispatch post wd wsp rs (step s (post req)) (n + 1)

/-- The run of `commenter.go` from the point where the results are loaded:
`if len(results) == 0 { os.Exit(0) }` precedes `createCommenter`, then the
dispatch loop runs and the exit decision is taken; `none` models a panic. -/
def runMain (results : List result) (post : CommentRequest → PostOutcome)
    (wd wsp : String) (softFail : Option String) : Option RunTrace :=
  if results.length = 0 then some ⟨0, false, 0⟩
  else
    match dispatch post wd wsp results ⟨[], false⟩ 0 with
    | none => none
    | some (s, n) => some ⟨exitCode s softFail, true, n⟩

end CmdCommenter

/-! ### Helper lemmas -/

theorem str_data_nil : ("" : String).data = [] := rfl

theorem strAppend_empty (a : String) : a ++ "" = a :=
  String.ext (by simp [str_data_nil])

theorem strEmpty_append (a : String) : "" ++ a = a :=
  String.ext (by simp [str_data_nil])

theorem strAppend_eq_empty_iff (a b : String) : a ++ b = "" ↔ a = "" ∧ b = "" := by
  constructor
  · intro h
    have hd : a.data ++ b.data = [] := by
      have := congrArg String.data h
      simpa [str_data_nil] using this
    rcases List.append_eq_nil.mp hd with ⟨ha, hb⟩
    exact ⟨String.ext (by simp [ha, str_data_nil]), String.ext (by simp [hb, str_data_nil])⟩
  · rintro ⟨rfl, rfl⟩
    rfl

/-- If the pattern never occurs in `s`, `replaceAllDel` leaves `s` unchanged
for any amount of fuel. -/
theorem replaceAllDel_no_occ : ∀ (fuel : Nat) (pat s : List Char),
    ¬ pat <:+: s → replaceAllDel pat fuel s = s := by
  intro fuel
  induction fuel with
  | zero => intro pat s _; rfl
  | succ n ih =>
    intro pat s h
    cases s with
    | nil => rfl
    | cons c rest =>
      rw [replaceAllDel, if_neg, ih pat rest (fun hi => h (List.infix_cons hi))]
      rintro ⟨-, hpre⟩
      exact h (List.isPrefixOf_iff_prefix.mp hpre).isInfix

/-- `strings.ReplaceAll(s, pat, "")` is the identity when `pat` does not
occur in `s`. -/
theorem replaceAllGo_id (s pat : String) (h : ¬ pat.data <:+: s.data) :
    replaceAllGo s pat = s :=
  String.ext (replaceAllDel_no_occ _ _ _ h)

/-- `strings.TrimPrefix(s, pat)` is the identity when `pat` is not a prefix
of `s`. -/
theorem trimPrefixGo_id (s pat : String) (h : ¬ pat.data <+: s.data) :
    trimPrefixGo s pat = s :=
  String.ext (by simp [trimPrefixGo, trimPrefixL, List.isPrefixOf_iff_prefix, h])

/-- The error messages accumulated by the `src/main.go` loop body are the
initial ones followed by every error message in the outcome list. -/
theorem trivyMain_foldl_errs (l : List TrivyMain.PostResult) :
    ∀ s : LoopState,
      (l.foldl TrivyMain.step s).errMessages = s.errMessages ++ TrivyMain.errsOf l := by
  induction l with
  | nil => intro s; simp [TrivyMain.errsOf]
  | cons o rest ih =>
    intro s
    cases o with
    | ok => simp [TrivyMain.step, TrivyMain.errsOf, ih, List.filterMap_cons]
    | err m =>
      simp [TrivyMain.step, TrivyMain.errsOf, ih, List.filterMap_cons]

/-- The success flag after the `src/main.go` loop: set exactly when it was
already set or some outcome was a success. -/
theorem trivyMain_foldl_valid (l : List TrivyMain.PostResult) :
    ∀ s : LoopState,
      (l.foldl TrivyMain.step s).validCommentWritten
        = (s.validCommentWritten || l.any TrivyMain.isOk) := by
  induction l with
  | nil => intro s; simp
  | cons o rest ih =>
    intro s
    cases o with
    | ok => simp [TrivyMain.step, TrivyMain.isOk, ih]
    | err m => simp [TrivyMain.step, TrivyMain.isOk, ih]

/-- The error messages accumulated by the `commenter.go` loop body are the
initial ones followed by every generic error message in the outcome list. -/
theorem cmd_foldl_errs (l : List CmdCommenter.PostOutcome) :
    ∀ s : LoopState,
      (l.foldl CmdCommenter.step s).errMessages
        = s.errMessages ++ CmdCommenter.errsOf l := by
  induction l with
  | nil => intro s; simp [CmdCommenter.errsOf]
  | cons o rest ih =>
    intro s
    cases o <;>
      simp [CmdCommenter.step, CmdCommenter.errsOf, ih, List.filterMap_cons]

/-- The `commenter.go` loop never clears the success flag. -/
theorem cmd_foldl_valid_true (l : List CmdCommenter.PostOutcome) :
    ∀ s : LoopState, s.validCommentWritten = true →
      (l.foldl CmdCommenter.step s).validCommentWritten = true := by
  induction l with
  | nil => intro s hs; simpa using hs
  | cons o rest ih =>
    intro s hs
    cases o <;> exact ih _ (by simp [CmdCommenter.step, hs])

/-! ### Link-list rendering lemmas -/

/-- The tail of the rendered link list: one `" and "`-separated link per
remaining URL. -/
def linkTail : List String → String
  | [] => ""
  | u :: us => " and " ++ ("[here](" ++ u ++ ")") ++ linkTail us

theorem appendUrl_ne_empty (acc u : String) : CmdCommenter.appendUrl acc u ≠ "" := by
  intro h
  rcases (strAppend_eq_empty_iff _ _).mp h with ⟨-, h2⟩
  rcases (strAppend_eq_empty_iff _ _).mp h2 with ⟨-, h3⟩
  exact absurd h3 (by decide)

theorem formatUrls_foldl_go (us : List String) :
    ∀ acc : String, acc ≠ "" →
      us.foldl CmdCommenter.appendUrl acc = acc ++ linkTail us := by
  induction us with
  | nil => intro acc _; simp [linkTail, strAppend_empty]
  | cons u rest ih =>
    intro acc hacc
    have h1 : CmdCommenter.appendUrl acc u
        = acc ++ (" and " ++ ("[here](" ++ u ++ ")")) := by
      simp [CmdCommenter.appendUrl, if_pos hacc, String.append_assoc]
    calc (u :: rest).foldl CmdCommenter.appendUrl acc
        = rest.foldl CmdCommenter.appendUrl (CmdCommenter.appendUrl acc u) := by simp
      _ = CmdCommenter.appendUrl acc u ++ linkTail rest := ih _ (appendUrl_ne_empty acc u)
      _ = acc ++ linkTail (u :: rest) := by
          rw [h1, linkTail]
          simp [String.append_assoc]

theorem specLinkList_eq_linkTail (u : String) :
    ∀ us : List String,
      CmdCommenter.specLinkList (u :: us) = ("[here](" ++ u ++ ")") ++ linkTail us := by
  intro us
  induction us generalizing u with
  | nil => simp [CmdCommenter.specLinkList, linkTail, strAppend_empty]
  | cons v vs ih =>
    rw [CmdCommenter.specLinkList, linkTail, ih v]
    simp only [String.append_assoc]

/-- `formatUrls` coincides with the spec's description of the link list. -/
theorem formatUrls_eq_specLinkList (urls : List String) :
    CmdCommenter.formatUrls urls = CmdCommenter.specLinkList urls := by
  cases urls with
  | nil => rfl
  | cons u us =>
    have h0 : CmdCommenter.appendUrl "" u = "[here](" ++ u ++ ")" := by
      simp [CmdCommenter.appendUrl, strEmpty_append]
    have hne : ("[here](" ++ u ++ ")" : String) ≠ "" := by
      intro h
      rcases (strAppend_eq_empty_iff _ _).mp h with ⟨-, h2⟩
      exact absurd h2 (by decide)
    rw [CmdCommenter.formatUrls, List.foldl_cons, h0,
      formatUrls_foldl_go us _ hne, specLinkList_eq_linkTail]

/-! ### Concrete sample values used by witnesses -/

/-- An oracle whose every post succeeds. -/
def constSuccess : CommentRequest → CmdCommenter.PostOutcome :=
  fun _ => CmdCommenter.PostOutcome.success

/-- A result with an empty `Misconfigurations` slice. -/
def sampleEmptyResult : CmdCommenter.result :=
  ⟨"main.tf", "config", "terraform", none, [], ⟨"main.tf"⟩⟩

/-! ### Claims -/

/-- C1 (counterexample): a run with exactly one successful post and no
errors does NOT exit 0 when the soft-fail flag is unset — both variants
exit 1. -/
theorem success_without_soft_fail_cex :
    CmdCommenter.exitCode (CmdCommenter.runLoop [CmdCommenter.PostOutcome.success]) none ≠ 0 ∧
    TrivyMain.exitCode (TrivyMain.runLoop [TrivyMain.PostResult.ok]) none ≠ 0 := by
  decide

/-- C1 (amended): in a run where at least one comment was posted
successfully and no unrecoverable posting error was recorded, both variants
exit 0 exactly when the soft-fail flag is enabled, and exit 1 otherwise. -/
theorem exit_zero_on_success_requires_soft_fail
    (oB : List CmdCommenter.PostOutcome) (oA : List TrivyMain.PostResult)
    (sf : Option String)
    (hBv : (CmdCommenter.runLoop oB).validCommentWritten = true)
    (hBe : (CmdCommenter.runLoop oB).errMessages = [])
    (hAv : (TrivyMain.runLoop oA).validCommentWritten = true)
    (hAe : (TrivyMain.runLoop oA).errMessages = []) :
    CmdCommenter.exitCode (CmdCommenter.runLoop oB) sf
        = (if softFailEnabled sf = true then 0 else 1) ∧
    TrivyMain.exitCode (TrivyMain.runLoop oA) sf
        = (if softFailEnabled sf = true then 0 else 1) := by
  constructor
  · simp [CmdCommenter.exitCode, hBe, hBv]
  · simp [TrivyMain.exitCode, hAe, hAv]

/-- C1 (witness): the amended theorem applied to a single successful post
with the soft-fail flag set to `"true"`. -/
theorem exit_zero_on_success_requires_soft_fail_witness :
    CmdCommenter.exitCode (CmdCommenter.runLoop [CmdCommenter.PostOutcome.success]) (some "true") = 0 ∧
    TrivyMain.exitCode (TrivyMain.runLoop [TrivyMain.PostResult.ok]) (some "true") = 0 := by
  have h := exit_zero_on_success_requires_soft_fail
    [CmdCommenter.PostOutcome.success] [TrivyMain.PostResult.ok] (some "true")
    (by decide) (by decide) (by decide) (by decide)
  have hs : softFailEnabled (some "true") = true := by decide
  exact ⟨by rw [h.1, if_pos hs], by rw [h.2, if_pos hs]⟩

/-- C2 (counterexample): a report whose only finding signals
`CommentNotValidError` does NOT exit 1 when soft-fail is disabled: the run
falls off the end of `main` and exits 0. -/
theorem not_in_diff_strict_exit_cex :
    CmdCommenter.exitCode (CmdCommenter.runLoop [CmdCommenter.PostOutcome.notValid]) none ≠ 1 := by
  decide

/-- C2 (amended): for a report with exactly one finding whose post signals
"not part of the current diff" and no other findings, the process exits 0
regardless of the soft-fail flag. -/
theorem not_in_diff_alone_exits_zero (sf : Option String) :
    CmdCommenter.exitCode (CmdCommenter.runLoop [CmdCommenter.PostOutcome.notValid]) sf = 0 := by
  rfl

/-- C3: every generic posting error of a `src/main.go` run is recorded (the
whole outcome list is processed, no fail-fast: the collected messages are
exactly the error messages of all outcomes in order, and the success flag
still reflects every outcome), and when at least one such error occurred the
run prints all collected messages and exits 1. -/
theorem generic_errors_all_recorded_exit_one
    (outs : List TrivyMain.PostResult) (sf : Option String)
    (h : TrivyMain.errsOf outs ≠ []) :
    (TrivyMain.runLoop outs).errMessages = TrivyMain.errsOf outs ∧
    (TrivyMain.runLoop outs).validCommentWritten = outs.any TrivyMain.isOk ∧
    TrivyMain.exitCode (TrivyMain.runLoop outs) sf = 1 ∧
    TrivyMain.printedErrors (TrivyMain.runLoop outs) = TrivyMain.errsOf outs := by
  have he : (TrivyMain.runLoop outs).errMessages = TrivyMain.errsOf outs := by
    simpa using trivyMain_foldl_errs outs ⟨[], false⟩
  have hv : (TrivyMain.runLoop outs).validCommentWritten = outs.any TrivyMain.isOk := by
    simpa using trivyMain_foldl_valid outs ⟨[], false⟩
  have hlen : 0 < (TrivyMain.runLoop outs).errMessages.length := by
    rw [he]
    exact List.length_pos.mpr h
  refine ⟨he, hv, ?_, ?_⟩
  · simp [TrivyMain.exitCode, hlen]
  · simp [TrivyMain.printedErrors, hlen, he]

/-- C3 (witness): a run with one generic error followed by one success. -/
theorem generic_errors_all_recorded_exit_one_witness :
    (TrivyMain.runLoop [TrivyMain.PostResult.err "boom", TrivyMain.PostResult.ok]).errMessages
        = TrivyMain.errsOf [TrivyMain.PostResult.err "boom", TrivyMain.PostResult.ok] ∧
    (TrivyMain.runLoop [TrivyMain.PostResult.err "boom", TrivyMain.PostResult.ok]).validCommentWritten
        = [TrivyMain.PostResult.err "boom", TrivyMain.PostResult.ok].any TrivyMain.isOk ∧
    TrivyMain.exitCode (TrivyMain.runLoop [TrivyMain.PostResult.err "boom", TrivyMain.PostResult.ok]) none = 1 ∧
    TrivyMain.printedErrors (TrivyMain.runLoop [TrivyMain.PostResult.err "boom", TrivyMain.PostResult.ok])
        = TrivyMain.errsOf [TrivyMain.PostResult.err "boom", TrivyMain.PostResult.ok] :=
  generic_errors_all_recorded_exit_one
    [TrivyMain.PostResult.err "boom", TrivyMain.PostResult.ok] none (by decide)

/-- C4 (counterexample): path normalization is not idempotent.  With
working directory `d` and workspace root `w` the path `w/f.tf` normalizes
to `d/f.tf`, but normalizing again yields `d/d/f.tf`. -/
theorem normalize_idempotent_cex :
    TrivyMain.normalizePath (normalizeWorkingDir "d") "w/"
        (TrivyMain.normalizePath (normalizeWorkingDir "d") "w/" "w/f.tf")
      ≠ TrivyMain.normalizePath (normalizeWorkingDir "d") "w/" "w/f.tf" := by
  decide

/-- C4 (amended): normalization is idempotent only in restricted
circumstances: when the configured working-directory prefix is empty and
the path at hand contains no occurrence of the workspace root and does not
start with `./`, normalization is the identity (hence idempotent on such
paths).  With a non-empty working-directory prefix idempotence fails, the
prefix being prepended again on the second pass. -/
theorem normalize_fixed_point_no_workdir (wsp q : String)
    (h1 : ¬ wsp.data <:+: q.data)
    (h2 : ¬ ("./" : String).data <+: q.data) :
    TrivyMain.normalizePath (normalizeWorkingDir "") wsp q = q ∧
    TrivyMain.normalizePath (normalizeWorkingDir "") wsp
        (TrivyMain.normalizePath (normalizeWorkingDir "") wsp q)
      = TrivyMain.normalizePath (normalizeWorkingDir "") wsp q := by
  have hwd : normalizeWorkingDir "" = "" := rfl
  have hfix : TrivyMain.normalizePath "" wsp q = q := by
    rw [TrivyMain.normalizePath, replaceAllGo_id q wsp h1, strEmpty_append,
      trimPrefixGo_id q _ h2]
  rw [hwd]
  refine ⟨hfix, ?_⟩
  rw [hfix]
  exact hfix

/-- C4 (witness): the amended theorem at workspace root `w` and the
already-normalized path `f.tf`. -/
theorem normalize_fixed_point_no_workdir_witness :
    TrivyMain.normalizePath (normalizeWorkingDir "") "w/" "f.tf" = "f.tf" :=
  (normalize_fixed_point_no_workdir "w/" "f.tf" (by decide) (by decide)).1

/-- C5: in the `commenter.go` variant only the first element of a result's
`Misconfigurations` list is used to build and post the comment: truncating
the list to its first element changes neither the comment request built for
the result nor the behaviour of the dispatch loop on it. -/
theorem only_first_misconfiguration_used
    (wd wsp : String) (r : CmdCommenter.result)
    (post : CommentRequest → CmdCommenter.PostOutcome)
    (rs : List CmdCommenter.result) (s : LoopState) (n : Nat) :
    CmdCommenter.requestOfResult wd wsp
        { r with Misconfigurations := r.Misconfigurations.take 1 }
      = CmdCommenter.requestOfResult wd wsp r ∧
    CmdCommenter.dispatch post wd wsp
        ({ r with Misconfigurations := r.Misconfigurations.take 1 } :: rs) s n
      = CmdCommenter.dispatch post wd wsp (r :: rs) s n := by
  have h1 : CmdCommenter.requestOfResult wd wsp
      { r with Misconfigurations := r.Misconfigurations.take 1 }
    = CmdCommenter.requestOfResult wd wsp r := by
    cases hm : r.Misconfigurations with
    | nil => simp [CmdCommenter.requestOfResult, hm]
    | cons m ms => simp [CmdCommenter.requestOfResult, hm]
  refine ⟨h1, ?_⟩
  simp only [CmdCommenter.dispatch, h1]

/-- C6 (counterexample): in the `src/main.go` variant, which the claim also
covers, there is no error-type switch: a post answered with the
`CommentAlreadyWrittenError` value is a non-nil error, so its message enters
the error tally and the run exits 1 — with soft-fail enabled the exit code
differs from the one of a successful post (1 versus 0), so the answer is
not treated as success there. -/
theorem already_written_not_success_cex :
    (TrivyMain.runLoop [TrivyMain.PostResult.err "comment already written"]).errMessages ≠ [] ∧
    TrivyMain.exitCode
        (TrivyMain.runLoop [TrivyMain.PostResult.err "comment already written"]) (some "true")
      ≠ TrivyMain.exitCode (TrivyMain.runLoop [TrivyMain.PostResult.ok]) (some "true") := by
  decide

/-- C6 (amended): only the `commenter.go` variant treats a post answered
with `CommentAlreadyWrittenError` as a success — the loop state it produces
is the one a successful post produces, it contributes nothing to the error
tally, the success flag is set, and the final exit code equals the one of
the run where that post succeeded.  In the `src/main.go` variant the same
answer arrives as a plain non-nil error: its message is recorded in the
error tally and the run exits 1. -/
theorem already_written_success_only_in_commenter
    (pre suf : List CmdCommenter.PostOutcome) (sf : Option String)
    (preA sufA : List TrivyMain.PostResult) (msg : String) :
    (CmdCommenter.runLoop (pre ++ CmdCommenter.PostOutcome.alreadyWritten :: suf)
        = CmdCommenter.runLoop (pre ++ CmdCommenter.PostOutcome.success :: suf) ∧
      (CmdCommenter.runLoop (pre ++ CmdCommenter.PostOutcome.alreadyWritten :: suf)).errMessages
        = (CmdCommenter.runLoop (pre ++ suf)).errMessages ∧
      (CmdCommenter.runLoop (pre ++ CmdCommenter.PostOutcome.alreadyWritten :: suf)).validCommentWritten
        = true ∧
      CmdCommenter.exitCode
          (CmdCommenter.runLoop (pre ++ CmdCommenter.PostOutcome.alreadyWritten :: suf)) sf
        = CmdCommenter.exitCode
          (CmdCommenter.runLoop (pre ++ CmdCommenter.PostOutcome.success :: suf)) sf) ∧
    msg ∈ (TrivyMain.runLoop (preA ++ TrivyMain.PostResult.err msg :: sufA)).errMessages ∧
    TrivyMain.exitCode (TrivyMain.runLoop (preA ++ TrivyMain.PostResult.err msg :: sufA)) sf
      = 1 := by
  have hstep : ∀ X : LoopState,
      CmdCommenter.step X CmdCommenter.PostOutcome.alreadyWritten
        = CmdCommenter.step X CmdCommenter.PostOutcome.success := fun X => rfl
  have h1 : CmdCommenter.runLoop (pre ++ CmdCommenter.PostOutcome.alreadyWritten :: suf)
      = CmdCommenter.runLoop (pre ++ CmdCommenter.PostOutcome.success :: suf) := by
    simp only [CmdCommenter.runLoop, List.foldl_append, List.foldl_cons, hstep]
  have h2 : (CmdCommenter.runLoop (pre ++ CmdCommenter.PostOutcome.alreadyWritten :: suf)).errMessages
      = (CmdCommenter.runLoop (pre ++ suf)).errMessages := by
    rw [CmdCommenter.runLoop, CmdCommenter.runLoop, cmd_foldl_errs, cmd_foldl_errs]
    simp [CmdCommenter.errsOf, List.filterMap_append, List.filterMap_cons]
  have h3 : (CmdCommenter.runLoop (pre ++ CmdCommenter.PostOutcome.alreadyWritten :: suf)).validCommentWritten
      = true := by
    rw [CmdCommenter.runLoop, List.foldl_append, List.foldl_cons]
    exact cmd_foldl_valid_true suf _ rfl
  have hAe : (TrivyMain.runLoop (preA ++ TrivyMain.PostResult.err msg :: sufA)).errMessages
      = TrivyMain.errsOf preA ++ msg :: TrivyMain.errsOf sufA := by
    rw [TrivyMain.runLoop, trivyMain_foldl_errs]
    simp [TrivyMain.errsOf, List.filterMap_append, List.filterMap_cons]
  have hmem : msg ∈ (TrivyMain.runLoop (preA ++ TrivyMain.PostResult.err msg :: sufA)).errMessages := by
    rw [hAe]
    exact List.mem_append_right _ (List.mem_cons_self _ _)
  have hlen : 0 < (TrivyMain.runLoop (preA ++ TrivyMain.PostResult.err msg :: sufA)).errMessages.length :=
    List.length_pos.mpr (fun hnil => by simp [hnil] at hmem)
  refine ⟨⟨h1, h2, h3, congrArg (fun st => CmdCommenter.exitCode st sf) h1⟩, hmem, ?_⟩
  simp [TrivyMain.exitCode, hlen]

/-- C7: a report that decodes to zero findings makes both variants exit 0
without constructing the comment-posting client and without attempting any
comment post. -/
theorem empty_report_exits_zero
    (postA : CommentRequest → TrivyMain.PostResult)
    (postB : CommentRequest → CmdCommenter.PostOutcome)
    (wd wsp : String) (sf : Option String) :
    TrivyMain.runMain [] postA wd wsp sf = ⟨0, false, 0⟩ ∧
    CmdCommenter.runMain [] postB wd wsp sf = some ⟨0, false, 0⟩ := by
  exact ⟨rfl, rfl⟩

/-- C8 (counterexample): a missing event payload does NOT make the process
exit 0: `extractPullRequestNumber` calls `fail`, which exits with code -1. -/
theorem missing_payload_exit_cex :
    TrivyMain.mainPrPhase TrivyMain.EventFile.missing ≠ TrivyMain.PrPhase.exited 0 := by
  decide

/-- C8 (amended): when the event payload is present but the `number` field
does not parse as an integer, or the payload JSON does not decode, the
process exits early with code 0; a missing event payload file, however, is
fatal: the process exits with code -1 via `fail`. -/
theorem pr_resolution_exit_codes (f : Option String)
    (h : TrivyMain.goAtoi (TrivyMain.fmtV f) = none) :
    TrivyMain.mainPrPhase (TrivyMain.EventFile.objectPayload f) = TrivyMain.PrPhase.exited 0 ∧
    TrivyMain.mainPrPhase TrivyMain.EventFile.badJson = TrivyMain.PrPhase.exited 0 ∧
    TrivyMain.mainPrPhase TrivyMain.EventFile.missing = TrivyMain.PrPhase.exited (-1) := by
  refine ⟨?_, rfl, rfl⟩
  simp [TrivyMain.mainPrPhase, TrivyMain.extractPullRequestNumber, h]

/-- C8 (witness): a payload whose `number` field renders as `abc`. -/
theorem pr_resolution_exit_codes_witness :
    TrivyMain.mainPrPhase (TrivyMain.EventFile.objectPayload (some "abc"))
        = TrivyMain.PrPhase.exited 0 ∧
    TrivyMain.mainPrPhase TrivyMain.EventFile.badJson = TrivyMain.PrPhase.exited 0 ∧
    TrivyMain.mainPrPhase TrivyMain.EventFile.missing = TrivyMain.PrPhase.exited (-1) :=
  pr_resolution_exit_codes (some "abc") (by decide)

/-- C9: the rendered comment body of the `commenter.go` variant contains the
misconfiguration's severity, rule ID and description verbatim, and the
rendered link list is exactly the spec's form — each URL as the markdown
link `[here](url)`, consecutive links joined by `" and "`, the empty string
for no URLs. -/
theorem comment_fields_verbatim (m : CmdCommenter.misconfiguration) (urls : List String) :
    (∃ a b : List Char,
      (CmdCommenter.generateErrorMessage m).data = a ++ m.Severity.data ++ b) ∧
    (∃ a b : List Char,
      (CmdCommenter.generateErrorMessage m).data = a ++ m.ID.data ++ b) ∧
    (∃ a b : List Char,
      (CmdCommenter.generateErrorMessage m).data = a ++ m.Description.data ++ b) ∧
    CmdCommenter.formatUrls urls = CmdCommenter.specLinkList urls ∧
    CmdCommenter.formatUrls [] = "" := by
  refine ⟨⟨(":warning: trivy found a **" : String).data, ?_, ?_⟩, ?_, ?_,
    formatUrls_eq_specLinkList urls, rfl⟩
  · exact ("** severity issue from rule `" : String).data ++ m.ID.data
      ++ ("`:\n> " : String).data ++ m.Description.data
      ++ ("\n\nMore information available " : String).data
      ++ (CmdCommenter.formatUrls m.References).data
  · simp only [CmdCommenter.generateErrorMessage, String.data_append, List.append_assoc]
  · refine ⟨(":warning: trivy found a **" : String).data ++ m.Severity.data
      ++ ("** severity issue from rule `" : String).data,
      ("`:\n> " : String).data ++ m.Description.data
        ++ ("\n\nMore information available " : String).data
        ++ (CmdCommenter.formatUrls m.References).data, ?_⟩
    simp only [CmdCommenter.generateErrorMessage, String.data_append, List.append_assoc]
  · refine ⟨(":warning: trivy found a **" : String).data ++ m.Severity.data
      ++ ("** severity issue from rule `" : String).data ++ m.ID.data
      ++ ("`:\n> " : String).data,
      ("\n\nMore information available " : String).data
        ++ (CmdCommenter.formatUrls m.References).data, ?_⟩
    simp only [CmdCommenter.generateErrorMessage, String.data_append, List.append_assoc]

/-- C10: dispatch in the `commenter.go` variant is total exactly on results
with a non-empty `Misconfigurations` list; a result with an empty list
reaches the unguarded `Misconfigurations[0]` index, modelled as the
unhandled (`none` / panic) case of the loop. -/
theorem misconf_head_unguarded (wd wsp : String) (r : CmdCommenter.result) :
    ((CmdCommenter.requestOfResult wd wsp r).isSome ↔ r.Misconfigurations ≠ []) ∧
    (r.Misconfigurations = [] →
      ∀ (post : CommentRequest → CmdCommenter.PostOutcome)
        (rs : List CmdCommenter.result) (s : LoopState) (n : Nat),
        CmdCommenter.dispatch post wd wsp (r :: rs) s n = none) := by
  constructor
  · cases hm : r.Misconfigurations with
    | nil => simp [CmdCommenter.requestOfResult, hm]
    | cons m ms => simp [CmdCommenter.requestOfResult, hm]
  · intro hm post rs s n
    have hreq : CmdCommenter.requestOfResult wd wsp r = none := by
      simp [CmdCommenter.requestOfResult, hm]
    simp [CmdCommenter.dispatch, hreq]

/-- C10 (witness): the dispatch loop on a concrete result with no
misconfigurations reaches the unhandled case. -/
theorem misconf_head_unguarded_witness :
    CmdCommenter.dispatch constSuccess "" "w/" [sampleEmptyResult] ⟨[], false⟩ 0 = none :=
  (misconf_head_unguarded "" "w/" sampleEmptyResult).2 rfl constSuccess [] ⟨[], false⟩ 0
